import Mathlib

/-!
# Verification of the Testify assertion library (`testify/assertions.py`)

Shallow embedding of the assertion functions of the Testify test framework.
Python's `assert cond, msg` statement is modelled as a computation in
`Except PyExn`: a failing assertion signals an `AssertionError` exception
carrying a message.  Python numbers (ints and floats) are modelled by `ℚ`
(exact arithmetic; floating-point rounding is outside the scope of this
embedding), Python dynamic values by the inductive `PyVal`, and exception
classes by `ExnClass` (matching in `except` clauses is modelled as equality
of classes).  The external collaborator `stringdiffer.highlight` is a
parameter, as the spec treats it as a black box.
-/

namespace Testify

/-- A Python exception class, identified by its name. -/
structure ExnClass where
  name : String
deriving DecidableEq, Repr

/-- A raised Python exception: its class together with its message. -/
structure PyExn where
  cls : ExnClass
  msg : String
deriving DecidableEq, Repr

/-- The class of exceptions produced by a failing `assert` statement. -/
def AssertionError : ExnClass := ⟨"AssertionError"⟩

/-- The class signalled by division by zero. -/
def ZeroDivisionError : ExnClass := ⟨"ZeroDivisionError"⟩

/-- The class signalled by out-of-range sequence indexing. -/
def IndexError : ExnClass := ⟨"IndexError"⟩

/-- A sample user exception class, used in concrete instantiations. -/
def ValueError : ExnClass := ⟨"ValueError"⟩

/-- The result of running a Python fragment: normal return or a raised exception. -/
abbrev PyResult (α : Type) := Except PyExn α

/-- Python's `assert cond, msg`: succeed silently when `cond` holds, otherwise
raise `AssertionError(msg)`. -/
def pyAssert (cond : Bool) (msg : String) : PyResult Unit :=
  if cond then Except.ok () else Except.error ⟨AssertionError, msg⟩

/-- Truthiness of an optional string message: `None` and `""` are falsy. -/
def truthy : Option String → Bool
  | some m => m ≠ ""
  | Option.none => false

/-- Python's `message or default` / `if message: … else: …` pattern on an
optional message argument. -/
def msgOr (message : Option String) (default : String) : String :=
  match message with
  | some m => if m ≠ "" then m else default
  | Option.none => default

/-- The computation returned normally. -/
def succeeds {α : Type} (r : PyResult α) : Prop :=
  ∃ a, r = Except.ok a

instance {α : Type} [DecidableEq α] (r : PyResult α) : Decidable (succeeds r) :=
  match r with
  | Except.ok a => Decidable.isTrue ⟨a, rfl⟩
  | Except.error _ => Decidable.isFalse (by rintro ⟨a, h⟩; cases h)

/-- The computation raised an exception of class `c`. -/
def failsWith (c : ExnClass) : PyResult Unit → Prop
  | Except.ok _ => False
  | Except.error e => e.cls = c

instance (c : ExnClass) (r : PyResult Unit) : Decidable (failsWith c r) :=
  match r with
  | Except.ok _ => Decidable.isFalse (fun h => h)
  | Except.error e => inferInstanceAs (Decidable (e.cls = c))

/-- Every exception the computation may raise is an `AssertionError`. -/
def onlyAssertionError : PyResult Unit → Prop
  | Except.ok _ => True
  | Except.error e => e.cls = AssertionError

theorem onlyAssertionError_pyAssert (cond : Bool) (msg : String) :
    onlyAssertionError (pyAssert cond msg) := by
  unfold pyAssert
  by_cases h : cond = true <;> simp [h, onlyAssertionError]

theorem succeeds_pyAssert (cond : Bool) (msg : String) :
    succeeds (pyAssert cond msg) ↔ cond = true := by
  unfold pyAssert
  by_cases h : cond = true <;> simp [h, succeeds]

theorem failsWith_pyAssert_of_false (msg : String) :
    failsWith AssertionError (pyAssert false msg) := by
  simp [pyAssert, failsWith]

/-! ## Python dynamic values

Enough of Python's value universe for the operands the claims quantify over:
strings (`basestring` instances), ints, floats, booleans and `None`. -/

/-- A Python value. -/
inductive PyVal where
  | str (s : String)
  | int (n : Int)
  | float (q : ℚ)
  | bool (b : Bool)
  | noneV
deriving DecidableEq, Repr

/-- Python's `isinstance(v, basestring)`. -/
def isBasestring : PyVal → Bool
  | PyVal.str _ => true
  | _ => false

/-- Python's `repr` on the embedded values. -/
def pyRepr : PyVal → String
  | PyVal.str s => "'" ++ s ++ "'"
  | PyVal.int n => toString n
  | PyVal.float q => toString q
  | PyVal.bool b => if b then "True" else "False"
  | PyVal.noneV => "None"

/-- Python's `str` on the embedded values. -/
def pyStr : PyVal → String
  | PyVal.str s => s
  | PyVal.int n => toString n
  | PyVal.float q => toString q
  | PyVal.bool b => if b then "True" else "False"
  | PyVal.noneV => "None"

/-! ## The diff-message helper -/

/-- The formatted block `'Diff:\nl: %s\nr: %s'` built from the pair returned by
the highlighter. -/
def diffBlock (p : String × String) : String :=
  "Diff:\nl: " ++ p.1 ++ "\nr: " ++ p.2

/-- `_diff_message(lhs, rhs)`: each operand is replaced by its `repr` when it is
not a `basestring`, then both are handed to the external highlighter
(`stringdiffer.highlight`, the parameter `highlight`). -/
def _diff_message (highlight : String → String → String × String)
    (lhs rhs : PyVal) : String :=
  let lhs' := if isBasestring lhs then pyStr lhs else pyRepr lhs
  let rhs' := if isBasestring rhs then pyStr rhs else pyRepr rhs
  diffBlock (highlight lhs' rhs')

/-! ## Equality and comparison assertions -/

/-- `assert_equal(lval, rval, message=None)`.  Python's `assert_equal` is
polymorphic; the embedding is parametrised by the operand type together with
its `repr` function and the diff-message function used in the default
message. -/
def assert_equal {α : Type} [BEq α] (rep : α → String) (diff : α → α → String)
    (lval rval : α) (message : Option String) : PyResult Unit :=
  pyAssert (lval == rval)
    (msgOr message
      ("assertion failed: l == r\nl: " ++ rep lval ++ "\nr: " ++ rep rval ++
        "\n\n" ++ diff lval rval))

/-- `assert_equals`, an alias of `assert_equal`. -/
def assert_equals {α : Type} [BEq α] (rep : α → String) (diff : α → α → String)
    (lval rval : α) (message : Option String) : PyResult Unit :=
  assert_equal rep diff lval rval message

/-- `assert_equal` at Python values, with the real `_diff_message` in the
default message. -/
def assert_equal_py (highlight : String → String → String × String)
    (lval rval : PyVal) (message : Option String) : PyResult Unit :=
  assert_equal pyRepr (_diff_message highlight) lval rval message

/-- `assert_not_equal(lval, rval, message=None)` at Python values. -/
def assert_not_equal (lval rval : PyVal) (message : Option String) : PyResult Unit :=
  pyAssert (lval != rval)
    (msgOr message ("assertion failed: " ++ pyStr lval ++ " != " ++ pyStr rval))

/-- `assert_lt(lval, rval, message=None)` at numeric operands. -/
def assert_lt (lval rval : ℚ) (message : Option String) : PyResult Unit :=
  pyAssert (decide (lval < rval))
    (msgOr message ("assertion failed: " ++ toString lval ++ " < " ++ toString rval))

/-- `assert_lte(lval, rval, message=None)` at numeric operands. -/
def assert_lte (lval rval : ℚ) (message : Option String) : PyResult Unit :=
  pyAssert (decide (lval ≤ rval))
    (msgOr message ("assertion failed: " ++ toString lval ++ " lte " ++ toString rval))

/-- `assert_gt(lval, rval, message=None)` at numeric operands. -/
def assert_gt (lval rval : ℚ) (message : Option String) : PyResult Unit :=
  pyAssert (decide (lval > rval))
    (msgOr message ("assertion failed: " ++ toString lval ++ " > " ++ toString rval))

/-- `assert_gte(lval, rval, message=None)` at numeric operands. -/
def assert_gte (lval rval : ℚ) (message : Option String) : PyResult Unit :=
  pyAssert (decide (lval ≥ rval))
    (msgOr message ("assertion failed: " ++ toString lval ++ " >= " ++ toString rval))

/-- Python 2's `round(x, ndigits)`: round to `ndigits` decimal places, ties
away from zero. -/
def py2round (x : ℚ) (ndigits : Int) : ℚ :=
  let scaled := x * (10 : ℚ) ^ ndigits
  let n : Int := if 0 ≤ scaled then ⌊scaled + 1 / 2⌋ else ⌈scaled - 1 / 2⌉
  (n : ℚ) / (10 : ℚ) ^ ndigits

/-- `assert_almost_equal(lval, rval, digits, message=None)`: compare the
operands after rounding each to `digits` decimal places. -/
def assert_almost_equal (lval rval : ℚ) (digits : Int) (message : Option String) :
    PyResult Unit :=
  pyAssert (decide (py2round lval digits = py2round rval digits))
    (msgOr message (toString lval ++ " !~= " ++ toString rval))

/-- `assert_within_tolerance(lval, rval, tolerance, message=None)`: the code
computes `abs(float(lval) - float(rval)) / float(lval)`, which raises
`ZeroDivisionError` when `lval` is zero, and otherwise asserts that the
quotient is below `tolerance`. -/
def assert_within_tolerance (lval rval tolerance : ℚ) (message : Option String) :
    PyResult Unit :=
  if lval = 0 then
    Except.error ⟨ZeroDivisionError, "float division by zero"⟩
  else
    pyAssert (decide (|lval - rval| / lval < tolerance))
      (msgOr message (toString lval ++ " !~= " ++ toString rval))

/-- `assert_in_range(val, start, end, message=None, inclusive=False)`. -/
def assert_in_range (val start endv : ℚ) (message : Option String)
    (inclusive : Bool) : PyResult Unit :=
  if inclusive then
    pyAssert (decide (start ≤ val ∧ val ≤ endv))
      (msgOr message
        ("! " ++ toString start ++ " <= " ++ toString val ++ " <= " ++ toString endv))
  else
    pyAssert (decide (start < val ∧ val < endv))
      (msgOr message
        ("! " ++ toString start ++ " < " ++ toString val ++ " < " ++ toString endv))

/-! ## Membership and structural assertions -/

/-- `assert_in(item, sequence)`. -/
def assert_in (item : PyVal) (sequence : List PyVal) : PyResult Unit :=
  pyAssert (sequence.contains item)
    ("assertion failed: expected " ++ pyRepr item ++ " in " ++ toString (sequence.map pyRepr))

/-- `assert_not_in(item, sequence)`. -/
def assert_not_in (item : PyVal) (sequence : List PyVal) : PyResult Unit :=
  pyAssert (!sequence.contains item)
    ("assertion failed: expected " ++ pyRepr item ++ " not in " ++ toString (sequence.map pyRepr))

/-- `assert_starts_with(val, prefix)` on text operands. -/
def assert_starts_with (val : String) (pre : String) : PyResult Unit :=
  pyAssert (val.startsWith pre)
    ("'" ++ val ++ "' does not start with '" ++ pre ++ "'")

/-- `assert_not_reached(message=None)`: unconditionally raise an
`AssertionError`. -/
def assert_not_reached (message : Option String) : PyResult Unit :=
  pyAssert false (msgOr message "egads! this line ought not to have been reached")

/-- The class raised by `%`-formatting on a type mismatch. -/
def TypeError : ExnClass := ⟨"TypeError"⟩

/-- The class raised by a missing mapping key in `%`-formatting. -/
def KeyError : ExnClass := ⟨"KeyError"⟩

/-- An entry of the `locals()` mapping seen by `%`-formatting: its `str`
rendering and whether a numeric conversion (`%d` and friends) accepts it. -/
structure LocalEntry where
  rendered : String
  isNum : Bool

/-- The conversion characters that require a numeric value. -/
def isNumConv (c : Char) : Bool :=
  c = 'd' || c = 'i' || c = 'o' || c = 'u' || c = 'x' || c = 'X' ||
  c = 'e' || c = 'E' || c = 'f' || c = 'F' || c = 'g' || c = 'G' || c = 'c'

/-- Scanner state of the `%`-formatting interpreter: plain text, inside a
`%(…)` key, or expecting the conversion character after a key. -/
inductive FmtState where
  | text
  | key (acc : List Char)
  | conv (key : List Char)

/-- Lookup in the `locals()` mapping. -/
def lookupEntry : List (String × LocalEntry) → String → Option LocalEntry
  | [], _ => Option.none
  | (k, v) :: rest, key => if k = key then some v else lookupEntry rest key

/-- The `str` rendering of the whole `locals()` dict (substituted by a bare
`%s` specifier, whose single value is the dict itself). -/
def renderLocals (env : List (String × LocalEntry)) : String :=
  "\x7b" ++
    String.intercalate ", "
      (env.map (fun kv => "'" ++ kv.1 ++ "': " ++ kv.2.rendered)) ++
  "\x7d"

/-- Python 2's `template % mapping` (`message % locals()` in the source),
on the fragment of the format grammar without flags, width and precision:
`%%` is a literal percent; `%(key)c` looks the key up (KeyError when absent)
and substitutes its rendering — TypeError when `c` is a numeric conversion
and the value is not numeric, ValueError when `c` is not a conversion
character; a bare `%c` treats the whole mapping as the single positional
value — `%s`/`%r` substitute its rendering once, a second bare specifier is
TypeError ("not enough arguments"), a numeric `%c` is TypeError (a dict is
not a number); an unterminated specifier is ValueError. -/
def pyMapFormat (env : List (String × LocalEntry)) (dictRendered : String) :
    List Char → FmtState → Bool → Except PyExn (List Char)
  | [], FmtState.text, _ => Except.ok []
  | [], FmtState.key _, _ => Except.error ⟨ValueError, "incomplete format key"⟩
  | [], FmtState.conv _, _ => Except.error ⟨ValueError, "incomplete format"⟩
  | c :: rest, FmtState.text, consumed =>
      if c = '%' then
        match rest with
        | [] => Except.error ⟨ValueError, "incomplete format"⟩
        | c2 :: rest2 =>
            if c2 = '%' then
              match pyMapFormat env dictRendered rest2 FmtState.text consumed with
              | Except.ok t => Except.ok ('%' :: t)
              | Except.error e => Except.error e
            else if c2 = '(' then
              pyMapFormat env dictRendered rest2 (FmtState.key []) consumed
            else if consumed then
              Except.error ⟨TypeError, "not enough arguments for format string"⟩
            else if c2 = 's' || c2 = 'r' then
              match pyMapFormat env dictRendered rest2 FmtState.text true with
              | Except.ok t => Except.ok (dictRendered.data ++ t)
              | Except.error e => Except.error e
            else if isNumConv c2 then
              Except.error ⟨TypeError, "a number is required, not dict"⟩
            else Except.error ⟨ValueError, "unsupported format character"⟩
      else
        match pyMapFormat env dictRendered rest FmtState.text consumed with
        | Except.ok t => Except.ok (c :: t)
        | Except.error e => Except.error e
  | c :: rest, FmtState.key acc, consumed =>
      if c = ')' then pyMapFormat env dictRendered rest (FmtState.conv acc) consumed
      else pyMapFormat env dictRendered rest (FmtState.key (acc ++ [c])) consumed
  | c :: rest, FmtState.conv key, consumed =>
      match lookupEntry env (String.mk key) with
      | Option.none => Except.error ⟨KeyError, String.mk key⟩
      | some entry =>
          if c = 's' || c = 'r' then
            match pyMapFormat env dictRendered rest FmtState.text consumed with
            | Except.ok t => Except.ok (entry.rendered.data ++ t)
            | Except.error e => Except.error e
          else if isNumConv c then
            if entry.isNum then
              match pyMapFormat env dictRendered rest FmtState.text consumed with
              | Except.ok t => Except.ok (entry.rendered.data ++ t)
              | Except.error e => Except.error e
            else Except.error ⟨TypeError, "a number is required"⟩
          else Except.error ⟨ValueError, "unsupported format character"⟩

/-- Lookup of the numeric flag only, used to state when formatting is
guaranteed to succeed. -/
def lookupFlag : List (String × Bool) → String → Option Bool
  | [], _ => Option.none
  | (k, b) :: rest, key => if k = key then some b else lookupFlag rest key

/-- `fmtOk ks chars st consumed` mirrors the control flow of `pyMapFormat`
on the key/numeric-flag skeleton `ks` and decides whether formatting
succeeds. -/
def fmtOk (ks : List (String × Bool)) : List Char → FmtState → Bool → Bool
  | [], FmtState.text, _ => true
  | [], FmtState.key _, _ => false
  | [], FmtState.conv _, _ => false
  | c :: rest, FmtState.text, consumed =>
      if c = '%' then
        match rest with
        | [] => false
        | c2 :: rest2 =>
            if c2 = '%' then fmtOk ks rest2 FmtState.text consumed
            else if c2 = '(' then fmtOk ks rest2 (FmtState.key []) consumed
            else if consumed then false
            else if c2 = 's' || c2 = 'r' then fmtOk ks rest2 FmtState.text true
            else false
      else fmtOk ks rest FmtState.text consumed
  | c :: rest, FmtState.key acc, consumed =>
      if c = ')' then fmtOk ks rest (FmtState.conv acc) consumed
      else fmtOk ks rest (FmtState.key (acc ++ [c])) consumed
  | c :: rest, FmtState.conv key, consumed =>
      match lookupFlag ks (String.mk key) with
      | Option.none => false
      | some isNum =>
          if c = 's' || c = 'r' then fmtOk ks rest FmtState.text consumed
          else if isNumConv c then
            if isNum then fmtOk ks rest FmtState.text consumed else false
          else false

/-- The default message template of `assert_length`. -/
def defaultLengthTemplate : String :=
  "%(sequence)s has length %(length)s expected %(expected)s"

/-- The `locals()` mapping in `assert_length`'s scope at the point of the
assert: the materialised sequence, the expected count, the resolved message
and the computed length. -/
def assertLengthEnv (sequence : List PyVal) (expected : Int) (msg : String) :
    List (String × LocalEntry) :=
  [("sequence", ⟨toString (sequence.map pyStr), false⟩),
   ("expected", ⟨toString expected, true⟩),
   ("message", ⟨msg, false⟩),
   ("length", ⟨toString sequence.length, true⟩)]

/-- `assert_length(sequence, expected, message=None)`: materialise the
sequence and compare its length; on a failing check the (custom or default)
message is `%`-formatted against `locals()`, so a custom message containing
format specifiers can itself raise TypeError, KeyError or ValueError instead
of the AssertionError. -/
def assert_length (sequence : List PyVal) (expected : Int) (message : Option String) :
    PyResult Unit :=
  if (sequence.length : Int) = expected then Except.ok ()
  else
    match pyMapFormat (assertLengthEnv sequence expected (msgOr message defaultLengthTemplate))
        (renderLocals (assertLengthEnv sequence expected (msgOr message defaultLengthTemplate)))
        (msgOr message defaultLengthTemplate).data FmtState.text false with
    | Except.ok out => Except.error ⟨AssertionError, String.mk out⟩
    | Except.error e => Except.error e

/-! ## `assert_raises` -/

/-- A Python callable taking positional and keyword arguments, whose body may
raise. -/
abbrev Callable := List PyVal → List (String × PyVal) → PyResult Unit

/-- The positional arguments of a call to `assert_raises`: either just the
exception class (`len(args) == 1`), or the class followed by a callable and
further positional arguments. -/
inductive RaisesArgs where
  | clsOnly (c : ExnClass)
  | withCallable (c : ExnClass) (f : Callable) (rest : List PyVal)

/-- The number of positional arguments, `len(args)`. -/
def RaisesArgs.numPos : RaisesArgs → Nat
  | RaisesArgs.clsOnly _ => 1
  | RaisesArgs.withCallable _ _ rest => 2 + rest.length

/-- A call to `assert_raises`: positional arguments plus keyword arguments. -/
structure RaisesCall where
  args : RaisesArgs
  kwargs : List (String × PyVal)

/-- What `assert_raises` returns: a context manager (a transformer of the
enclosed block's outcome), a normal return after invoking the callable, or a
`TypeError`-shaped misuse (class alone with keyword arguments). -/
inductive RaisesOutcome where
  | contextManager (run : PyResult Unit → PyResult Unit)
  | returned (r : PyResult Unit)
  | typeError

/-- `_assert_raises_context_manager(exception_class)` applied to the outcome of
the enclosed block: `try: yield / except exception_class: return / else:
assert_not_reached(...)`. -/
def _assert_raises_context_manager (exception_class : ExnClass)
    (body : PyResult Unit) : PyResult Unit :=
  match body with
  | Except.error e =>
      if e.cls = exception_class then Except.ok () else Except.error e
  | Except.ok _ =>
      assert_not_reached
        (some ("No exception was raised (expected <class '" ++
          exception_class.name ++ "'>)"))

/-- `_assert_raises(exception_class, callable, *args, **kwargs)`: run the
callable on the given arguments inside the scoped context manager. -/
def _assert_raises (exception_class : ExnClass) (callable : Callable)
    (args : List PyVal) (kwargs : List (String × PyVal)) : PyResult Unit :=
  _assert_raises_context_manager exception_class (callable args kwargs)

/-- `assert_raises(*args, **kwargs)`: with exactly one positional argument and
no keyword arguments, return the context manager; otherwise dispatch to
`_assert_raises`. -/
def assert_raises (call : RaisesCall) : RaisesOutcome :=
  if call.args.numPos = 1 ∧ call.kwargs = [] then
    match call.args with
    | RaisesArgs.clsOnly c =>
        RaisesOutcome.contextManager (_assert_raises_context_manager c)
    | RaisesArgs.withCallable _ _ _ => RaisesOutcome.typeError
  else
    match call.args with
    | RaisesArgs.withCallable c f rest =>
        RaisesOutcome.returned (_assert_raises c f rest call.kwargs)
    | RaisesArgs.clsOnly _ => RaisesOutcome.typeError

/-! ## `assert_call` -/

/-- A recorded call on a test double: positional arguments and keyword
arguments. -/
abbrev CallRecord := List PyVal × List (String × PyVal)

/-- Python list indexing `l[i]`, with negative indices counting from the end
and `IndexError` out of range. -/
def pyIndex {α : Type} (l : List α) (i : Int) : PyResult α :=
  let j := if i < 0 then i + l.length else i
  if h : 0 ≤ j ∧ j.toNat < l.length then Except.ok (l.get ⟨j.toNat, h.2⟩)
  else Except.error ⟨IndexError, "list index out of range"⟩

/-- `assert_call(turtle, call_idx, *args, **kwargs)`: look up
`turtle.calls[call_idx]` when the call log is non-empty (else `None`), then
compare with the expected `(args, kwargs)` tuple. -/
def assert_call (calls : List CallRecord) (call_idx : Int)
    (args : List PyVal) (kwargs : List (String × PyVal)) : PyResult Unit := do
  let actual : Option CallRecord ←
    if calls.isEmpty then pure Option.none
    else do
      let c ← pyIndex calls call_idx
      pure (some c)
  pyAssert (actual == some (args, kwargs))
    ("Call " ++ toString call_idx ++ " expected, was different")

/-! ## `assert_rows_equal`

`norm_row` turns a record into a Python tuple: for a dict, the `(key, value)`
pairs listed in sorted key order; for any other sequence, the sorted values.
Both normalised forms are tuples whose elements are either ints or pairs;
Python 2's universal order sorts ints before tuples and compares tuples
lexicographically, which the comparator `elemLe`/`lexLe` mirrors.  `sorted` is
modelled by `List.mergeSort` (Python's sort; any stable sort of a total order
yields the same list). -/

/-- A record in a row: a dict (association list) or a plain sequence of
values. -/
inductive Row where
  | dict (entries : List (String × Int))
  | seq (vals : List Int)

/-- An element of a normalised record: an int or a `(key, value)` pair. -/
inductive NormElem where
  | int (n : Int)
  | pair (k : String) (v : Int)
deriving DecidableEq, Repr

/-- Python 2's order on the elements of normalised records: ints before pairs,
pairs lexicographically. -/
def elemLe : NormElem → NormElem → Bool
  | NormElem.int a, NormElem.int b => decide (a ≤ b)
  | NormElem.int _, NormElem.pair _ _ => true
  | NormElem.pair _ _, NormElem.int _ => false
  | NormElem.pair k1 v1, NormElem.pair k2 v2 =>
      if k1 = k2 then decide (v1 ≤ v2) else decide (k1 < k2)

/-- Lexicographic order on tuples (Python's tuple comparison), built from a
comparator on elements. -/
def lexLe {α : Type} [DecidableEq α] (le : α → α → Bool) : List α → List α → Bool
  | [], _ => true
  | _ :: _, [] => false
  | a :: as, b :: bs => if a = b then lexLe le as bs else le a b

/-- Python's `dict[k]` on an association list (keys are unique in a dict). -/
def lookupD : List (String × Int) → String → Int
  | [], _ => 0
  | (k', v) :: rest, k => if k' = k then v else lookupD rest k

/-- Comparator for strings, `decide (a ≤ b)`. -/
def strLe (a b : String) : Bool := decide (a ≤ b)

/-- Comparator for ints, `decide (a ≤ b)`. -/
def intLe (a b : Int) : Bool := decide (a ≤ b)

/-- Comparator for normalised records. -/
def rowLe : List NormElem → List NormElem → Bool := lexLe elemLe

/-- `norm_row(row)`: a dict becomes `tuple((k, row[k]) for k in sorted(row))`,
any other row becomes `tuple(sorted(row))`. -/
def norm_row : Row → List NormElem
  | Row.dict entries =>
      ((entries.map Prod.fst).mergeSort strLe).map
        (fun k => NormElem.pair k (lookupD entries k))
  | Row.seq vals => (vals.mergeSort intLe).map NormElem.int

/-- `norm_rows(rows)`: the sorted tuple of the normalised rows. -/
def norm_rows (rows : List Row) : List (List NormElem) :=
  (rows.map norm_row).mergeSort rowLe

/-- A rendering of normalised rows for the diff message. -/
def normRepr (r : List (List NormElem)) : String := toString (repr r)

/-- `assert_rows_equal(rows1, rows2)`: `assert_equal` on the normalised
forms. -/
def assert_rows_equal (highlight : String → String → String × String)
    (rows1 rows2 : List Row) : PyResult Unit :=
  assert_equal normRepr
    (fun a b => diffBlock (highlight (normRepr a) (normRepr b)))
    (norm_rows rows1) (norm_rows rows2) Option.none

/-- Two rows differ only by a permutation of the keys (entries) within a dict;
non-dict rows are unchanged. -/
def KeyPerm : Row → Row → Prop
  | Row.dict e1, Row.dict e2 => e1.Perm e2
  | Row.seq v1, Row.seq v2 => v1 = v2
  | _, _ => False

/-- The keys of a dict row are distinct (always true of a Python dict). -/
def DictNodup : Row → Prop
  | Row.dict entries => (entries.map Prod.fst).Nodup
  | Row.seq _ => True

/-! ## Order-theoretic lemmas about the sorting comparators -/

theorem lexLe_total {α : Type} [DecidableEq α] (le : α → α → Bool)
    (htotal : ∀ a b, le a b = true ∨ le b a = true) :
    ∀ l1 l2 : List α, lexLe le l1 l2 = true ∨ lexLe le l2 l1 = true := by
  intro l1
  induction l1 with
  | nil => intro l2; left; rfl
  | cons a as ih =>
    intro l2
    cases l2 with
    | nil => right; rfl
    | cons b bs =>
      by_cases hab : a = b
      · subst hab
        simpa [lexLe] using ih bs
      · have hba : ¬ b = a := fun h => hab h.symm
        simpa [lexLe, hab, hba] using htotal a b

theorem lexLe_antisymm {α : Type} [DecidableEq α] (le : α → α → Bool)
    (hanti : ∀ a b, le a b = true → le b a = true → a = b) :
    ∀ l1 l2 : List α, lexLe le l1 l2 = true → lexLe le l2 l1 = true → l1 = l2 := by
  intro l1
  induction l1 with
  | nil =>
    intro l2 _ h21
    cases l2 with
    | nil => rfl
    | cons b bs => simp [lexLe] at h21
  | cons a as ih =>
    intro l2 h12 h21
    cases l2 with
    | nil => simp [lexLe] at h12
    | cons b bs =>
      by_cases hab : a = b
      · subst hab
        simp only [lexLe, if_pos rfl] at h12 h21
        exact congrArg (a :: ·) (ih bs h12 h21)
      · have hba : ¬ b = a := fun h => hab h.symm
        simp only [lexLe, if_neg hab] at h12
        simp only [lexLe, if_neg hba] at h21
        exact absurd (hanti a b h12 h21) hab

theorem lexLe_trans {α : Type} [DecidableEq α] (le : α → α → Bool)
    (htrans : ∀ a b c, le a b = true → le b c = true → le a c = true)
    (hanti : ∀ a b, le a b = true → le b a = true → a = b) :
    ∀ l1 l2 l3 : List α,
      lexLe le l1 l2 = true → lexLe le l2 l3 = true → lexLe le l1 l3 = true := by
  intro l1
  induction l1 with
  | nil => intro l2 l3 _ _; rfl
  | cons a as ih =>
    intro l2 l3 h12 h23
    cases l2 with
    | nil => simp [lexLe] at h12
    | cons b bs =>
      cases l3 with
      | nil => simp [lexLe] at h23
      | cons c cs =>
        by_cases hab : a = b
        · subst hab
          simp only [lexLe, if_pos rfl] at h12
          by_cases hac : a = c
          · subst hac
            simp only [lexLe, if_pos rfl] at h23 ⊢
            exact ih bs cs h12 h23
          · simp only [lexLe, if_neg hac] at h23 ⊢
            exact h23
        · have hba : ¬ b = a := fun h => hab h.symm
          simp only [lexLe, if_neg hab] at h12
          by_cases hbc : b = c
          · subst hbc
            simp only [lexLe, if_neg hab]
            exact h12
          · simp only [lexLe, if_neg hbc] at h23
            by_cases hac : a = c
            · subst hac
              exact absurd (hanti a b h12 h23) hab
            · simp only [lexLe, if_neg hac]
              exact htrans a b c h12 h23

theorem elemLe_total (a b : NormElem) : elemLe a b = true ∨ elemLe b a = true := by
  cases a with
  | int m =>
    cases b with
    | int n => simpa [elemLe] using Int.le_total m n
    | pair k v => left; rfl
  | pair k1 v1 =>
    cases b with
    | int n => right; rfl
    | pair k2 v2 =>
      by_cases hk : k1 = k2
      · subst hk
        simpa [elemLe] using Int.le_total v1 v2
      · have hk' : ¬ k2 = k1 := fun h => hk h.symm
        simp only [elemLe, if_neg hk, if_neg hk', decide_eq_true_eq]
        exact (lt_or_gt_of_ne hk).imp id id

theorem elemLe_antisymm (a b : NormElem) :
    elemLe a b = true → elemLe b a = true → a = b := by
  cases a with
  | int m =>
    cases b with
    | int n =>
      intro h1 h2
      simp only [elemLe, decide_eq_true_eq] at h1 h2
      exact congrArg NormElem.int (le_antisymm h1 h2)
    | pair k v => intro _ h2; simp [elemLe] at h2
  | pair k1 v1 =>
    cases b with
    | int n => intro h1 _; simp [elemLe] at h1
    | pair k2 v2 =>
      intro h1 h2
      by_cases hk : k1 = k2
      · subst hk
        simp only [elemLe, if_true, eq_self_iff_true, decide_eq_true_eq] at h1 h2
        exact congrArg (NormElem.pair k1) (le_antisymm h1 h2)
      · have hk' : ¬ k2 = k1 := fun h => hk h.symm
        simp only [elemLe, if_neg hk, if_neg hk', decide_eq_true_eq] at h1 h2
        exact absurd (lt_trans h1 h2) (lt_irrefl k1)

theorem elemLe_trans (a b c : NormElem) :
    elemLe a b = true → elemLe b c = true → elemLe a c = true := by
  cases a with
  | int m =>
    cases b with
    | int n =>
      cases c with
      | int p =>
        intro h1 h2
        simp only [elemLe, decide_eq_true_eq] at h1 h2 ⊢
        exact le_trans h1 h2
      | pair k v => intro _ _; rfl
    | pair k v =>
      cases c with
      | int p => intro _ h2; simp [elemLe] at h2
      | pair k' v' => intro _ _; rfl
  | pair k1 v1 =>
    cases b with
    | int n => intro h1 _; simp [elemLe] at h1
    | pair k2 v2 =>
      cases c with
      | int p => intro _ h2; simp [elemLe] at h2
      | pair k3 v3 =>
        intro h1 h2
        by_cases h12 : k1 = k2
        · subst h12
          by_cases h13 : k1 = k3
          · subst h13
            simp only [elemLe, if_true, eq_self_iff_true, decide_eq_true_eq] at h1 h2 ⊢
            exact le_trans h1 h2
          · simp only [elemLe, if_true, eq_self_iff_true, if_neg h13] at h2 ⊢
            exact h2
        · by_cases h23 : k2 = k3
          · subst h23
            simp only [elemLe, if_neg h12] at h1 ⊢
            exact h1
          · simp only [elemLe, if_neg h12, if_neg h23, decide_eq_true_eq] at h1 h2
            have h13 : k1 < k3 := lt_trans h1 h2
            simp only [elemLe, if_neg (ne_of_lt h13), decide_eq_true_eq]
            exact h13

theorem strLe_total (a b : String) : strLe a b = true ∨ strLe b a = true := by
  simpa [strLe] using le_total a b

theorem strLe_antisymm (a b : String) :
    strLe a b = true → strLe b a = true → a = b := by
  simp only [strLe, decide_eq_true_eq]
  exact le_antisymm

theorem strLe_trans (a b c : String) :
    strLe a b = true → strLe b c = true → strLe a c = true := by
  simp only [strLe, decide_eq_true_eq]
  exact le_trans

theorem intLe_total (a b : Int) : intLe a b = true ∨ intLe b a = true := by
  simpa [intLe] using Int.le_total a b

theorem intLe_antisymm (a b : Int) :
    intLe a b = true → intLe b a = true → a = b := by
  simp only [intLe, decide_eq_true_eq]
  exact le_antisymm

theorem intLe_trans (a b c : Int) :
    intLe a b = true → intLe b c = true → intLe a c = true := by
  simp only [intLe, decide_eq_true_eq]
  exact le_trans

theorem rowLe_total (a b : List NormElem) : rowLe a b = true ∨ rowLe b a = true :=
  lexLe_total elemLe elemLe_total a b

theorem rowLe_antisymm (a b : List NormElem) :
    rowLe a b = true → rowLe b a = true → a = b :=
  lexLe_antisymm elemLe elemLe_antisymm a b

theorem rowLe_trans (a b c : List NormElem) :
    rowLe a b = true → rowLe b c = true → rowLe a c = true :=
  lexLe_trans elemLe elemLe_trans elemLe_antisymm a b c

/-- A sort with a transitive, total, antisymmetric comparator is a canonical
form for permutation classes: two lists have equal sorts exactly when they are
permutations of one another. -/
theorem mergeSort_eq_iff_perm {α : Type} (le : α → α → Bool)
    (htrans : ∀ a b c, le a b = true → le b c = true → le a c = true)
    (htotal : ∀ a b, le a b = true ∨ le b a = true)
    (hanti : ∀ a b, le a b = true → le b a = true → a = b)
    (l1 l2 : List α) :
    l1.mergeSort le = l2.mergeSort le ↔ l1.Perm l2 := by
  constructor
  · intro h
    exact (List.mergeSort_perm l1 le).symm.trans (h ▸ List.mergeSort_perm l2 le)
  · intro h
    have p : (l1.mergeSort le).Perm (l2.mergeSort le) :=
      ((List.mergeSort_perm l1 le).trans h).trans (List.mergeSort_perm l2 le).symm
    have htotal' : ∀ a b, (le a b || le b a) = true := by
      intro a b
      rcases htotal a b with h' | h' <;> simp [h']
    have s1 : (l1.mergeSort le).Pairwise (fun a b => le a b = true) :=
      List.sorted_mergeSort htrans htotal' l1
    have s2 : (l2.mergeSort le).Pairwise (fun a b => le a b = true) :=
      List.sorted_mergeSort htrans htotal' l2
    exact @List.eq_of_perm_of_sorted α (fun a b => le a b = true) ⟨hanti⟩ _ _ p s1 s2

/-! ## Success characterisations -/

theorem succeeds_assert_equal {α : Type} [BEq α] [LawfulBEq α]
    (rep : α → String) (diff : α → α → String) (lval rval : α)
    (message : Option String) :
    succeeds (assert_equal rep diff lval rval message) ↔ lval = rval := by
  unfold assert_equal
  rw [succeeds_pyAssert]
  simp

theorem lookupD_perm (e1 e2 : List (String × Int)) (h : e1.Perm e2) :
    (e1.map Prod.fst).Nodup → ∀ k, lookupD e1 k = lookupD e2 k := by
  induction h with
  | nil => intro _ k; rfl
  | cons x h ih =>
    intro hnd k
    obtain ⟨x1, x2⟩ := x
    by_cases hk : x1 = k
    · simp [lookupD, hk]
    · simp only [lookupD, if_neg hk]
      exact ih (List.nodup_cons.mp hnd).2 k
  | swap x y l =>
    intro hnd k
    obtain ⟨x1, x2⟩ := x
    obtain ⟨y1, y2⟩ := y
    have h' : (y1 :: x1 :: l.map Prod.fst).Nodup := hnd
    have hyx : y1 ≠ x1 := by
      intro hEq
      exact (List.nodup_cons.mp h').1 (by simp [hEq])
    by_cases hx : x1 = k <;> by_cases hy : y1 = k
    · exact absurd (hy.trans hx.symm) hyx
    · simp [lookupD, hx, hy]
    · simp [lookupD, hx, hy]
    · simp [lookupD, hx, hy]
  | trans h1 h2 ih1 ih2 =>
    intro hnd k
    have hnd2 := ((h1.map Prod.fst).nodup_iff).mp hnd
    exact (ih1 hnd k).trans (ih2 hnd2 k)

theorem norm_row_keyPerm (r1 r2 : Row) (h : KeyPerm r1 r2) (hnd : DictNodup r1) :
    norm_row r1 = norm_row r2 := by
  cases r1 with
  | dict e1 =>
    cases r2 with
    | dict e2 =>
      have hperm : e1.Perm e2 := h
      have hkeys : (e1.map Prod.fst).Perm (e2.map Prod.fst) := hperm.map _
      have hsort : (e1.map Prod.fst).mergeSort strLe = (e2.map Prod.fst).mergeSort strLe :=
        (mergeSort_eq_iff_perm strLe strLe_trans strLe_total strLe_antisymm _ _).mpr hkeys
      simp only [norm_row]
      rw [hsort]
      refine List.map_congr_left ?_
      intro k _
      rw [lookupD_perm e1 e2 hperm hnd k]
    | seq v2 => exact absurd h (by simp [KeyPerm])
  | seq v1 =>
    cases r2 with
    | dict e2 => exact absurd h (by simp [KeyPerm])
    | seq v2 =>
      have hv : v1 = v2 := h
      rw [hv]

theorem succeeds_assert_rows_equal
    (highlight : String → String → String × String) (rows1 rows2 : List Row) :
    succeeds (assert_rows_equal highlight rows1 rows2) ↔
      (rows1.map norm_row).Perm (rows2.map norm_row) := by
  unfold assert_rows_equal
  rw [succeeds_assert_equal]
  unfold norm_rows
  exact mergeSort_eq_iff_perm rowLe rowLe_trans rowLe_total rowLe_antisymm _ _

theorem pyAssert_cases (cond : Bool) (m : String) :
    succeeds (pyAssert cond m) ∨ failsWith AssertionError (pyAssert cond m) := by
  cases cond
  · right
    exact failsWith_pyAssert_of_false m
  · left
    rw [succeeds_pyAssert]

theorem pyIndex_error {α : Type} (l : List α) (i : Int) (e : PyExn)
    (h : pyIndex l i = Except.error e) : e.cls = IndexError := by
  unfold pyIndex at h
  dsimp only at h
  split at h <;> split at h <;> cases h <;> rfl

theorem map_norm_row_keyPerm (rows rows' : List Row)
    (h : List.Forall₂ KeyPerm rows rows') (hnd : ∀ r ∈ rows, DictNodup r) :
    rows.map norm_row = rows'.map norm_row := by
  induction h with
  | nil => rfl
  | cons h1 h2 ih =>
    simp only [List.map_cons]
    rw [norm_row_keyPerm _ _ h1 (hnd _ (by simp)),
      ih (fun r hr => hnd r (by simp [hr]))]

/-! ## The claims -/

/-- C9: for every value `a`, `assert_equal(a, a)` succeeds (returns normally),
and `assert_not_equal(a, a)` fails by signalling the AssertionFailure kind. -/
theorem assert_equal_refl_spec :
    (∀ (highlight : String → String → String × String) (a : PyVal),
        succeeds (assert_equal_py highlight a a Option.none))
  ∧ (∀ a : PyVal, failsWith AssertionError (assert_not_equal a a Option.none)) := by
  constructor
  · intro hl a
    unfold assert_equal_py
    rw [succeeds_assert_equal]
  · intro a
    unfold assert_not_equal
    have hne : (a != a) = false := by simp
    rw [hne]
    exact failsWith_pyAssert_of_false _

/-- C3: `assert_in_range(v, s, e, inclusive=True)` succeeds exactly when
`s ≤ v ≤ e`, `assert_in_range(v, s, e, inclusive=False)` succeeds exactly when
`s < v < e`, and in the failing case the signal is an AssertionFailure. -/
theorem assert_in_range_spec :
    (∀ (v s e : ℚ) (m : Option String),
        succeeds (assert_in_range v s e m true) ↔ s ≤ v ∧ v ≤ e)
  ∧ (∀ (v s e : ℚ) (m : Option String),
        succeeds (assert_in_range v s e m false) ↔ s < v ∧ v < e)
  ∧ (∀ (v s e : ℚ) (m : Option String) (inclusive : Bool),
        succeeds (assert_in_range v s e m inclusive) ∨
          failsWith AssertionError (assert_in_range v s e m inclusive)) := by
  refine ⟨?_, ?_, ?_⟩
  · intro v s e m
    simp only [assert_in_range, if_true]
    rw [succeeds_pyAssert, decide_eq_true_eq]
  · intro v s e m
    simp only [assert_in_range, Bool.false_eq_true, if_false]
    rw [succeeds_pyAssert, decide_eq_true_eq]
  · intro v s e m inclusive
    cases inclusive
    · simp only [assert_in_range, Bool.false_eq_true, if_false]
      exact pyAssert_cases _ _
    · simp only [assert_in_range, if_true]
      exact pyAssert_cases _ _

/-- C5: for nonzero `l`, `assert_within_tolerance(l, r, tolerance)` succeeds
exactly when `|l - r| / l < tolerance`, with the signed `l` as denominator:
`(100, 101, 0.02)` succeeds, `(100, 110, 0.02)` fails, and `(-100, -110, 0.02)`
succeeds even though the symmetric `|l|`-denominator formula would reject
it. -/
theorem assert_within_tolerance_spec :
    (∀ (l r t : ℚ) (m : Option String), l ≠ 0 →
        (succeeds (assert_within_tolerance l r t m) ↔ |l - r| / l < t))
  ∧ succeeds (assert_within_tolerance 100 101 (2 / 100) Option.none)
  ∧ ¬ succeeds (assert_within_tolerance 100 110 (2 / 100) Option.none)
  ∧ (succeeds (assert_within_tolerance (-100) (-110) (2 / 100) Option.none)
      ∧ ¬ (|(-100 : ℚ) - (-110)| / |(-100 : ℚ)| < 2 / 100)) := by
  have key : ∀ (l r t : ℚ) (m : Option String), l ≠ 0 →
      (succeeds (assert_within_tolerance l r t m) ↔ |l - r| / l < t) := by
    intro l r t m hl
    simp only [assert_within_tolerance, if_neg hl]
    rw [succeeds_pyAssert, decide_eq_true_eq]
  refine ⟨key, ?_, ?_, ?_, ?_⟩
  · exact (key 100 101 (2 / 100) Option.none (by norm_num)).mpr (by norm_num)
  · intro h
    have := (key 100 110 (2 / 100) Option.none (by norm_num)).mp h
    norm_num at this
  · exact (key (-100) (-110) (2 / 100) Option.none (by norm_num)).mpr (by norm_num)
  · norm_num

/-- C8: `assert_almost_equal(l, r, digits)` succeeds exactly when the operands
are equal after each is rounded to `digits` decimal places; it does not
compare the unrounded operands (`0.1` vs `0.11` at one digit succeeds although
the operands differ). -/
theorem assert_almost_equal_spec :
    (∀ (l r : ℚ) (d : Int) (m : Option String),
        succeeds (assert_almost_equal l r d m) ↔ py2round l d = py2round r d)
  ∧ (succeeds (assert_almost_equal (1 / 10) (11 / 100) 1 Option.none)
      ∧ (1 / 10 : ℚ) ≠ 11 / 100) := by
  have key : ∀ (l r : ℚ) (d : Int) (m : Option String),
      succeeds (assert_almost_equal l r d m) ↔ py2round l d = py2round r d := by
    intro l r d m
    unfold assert_almost_equal
    rw [succeeds_pyAssert, decide_eq_true_eq]
  refine ⟨key, ?_, by norm_num⟩
  refine (key (1 / 10) (11 / 100) 1 Option.none).mpr ?_
  norm_num [py2round]

/-- C10: on a recorder whose call log is empty, `assert_call` treats the
actual call as absent (`None`) and fails with an AssertionFailure comparing it
to the expected arguments, for every index and argument list; it performs no
indexing. -/
theorem assert_call_empty_spec :
    (∀ (i : Int) (args : List PyVal) (kwargs : List (String × PyVal)),
        assert_call [] i args kwargs
          = pyAssert ((Option.none : Option CallRecord) == some (args, kwargs))
              ("Call " ++ toString i ++ " expected, was different"))
  ∧ (∀ (i : Int) (args : List PyVal) (kwargs : List (String × PyVal)),
        failsWith AssertionError (assert_call [] i args kwargs)) := by
  constructor
  · intro i args kwargs
    rfl
  · intro i args kwargs
    exact failsWith_pyAssert_of_false _

theorem string_eq_empty_of_length_eq_zero (s : String) (h : s.length = 0) : s = "" := by
  cases s with
  | mk data =>
    cases data with
    | nil => rfl
    | cons c cs => simp [String.length] at h

theorem append_ne_empty_left (s t : String) (hs : s ≠ "") : s ++ t ≠ "" := by
  intro h
  have hlen := congrArg String.length h
  rw [String.length_append] at hlen
  have h0 : s.length = 0 := by
    have hemp : ("" : String).length = 0 := rfl
    omega
  exact hs (string_eq_empty_of_length_eq_zero s h0)

theorem assert_not_reached_some (m : String) (hm : m ≠ "") :
    assert_not_reached (some m) = Except.error ⟨AssertionError, m⟩ := by
  simp [assert_not_reached, pyAssert, msgOr, hm]

/-- C2: `assert_raises` used as a scoped context manager satisfies the
trichotomy: an inner failure of the expected kind is absorbed and the
assertion succeeds; no inner failure makes `assert_raises` itself signal an
AssertionFailure whose message contains "No exception was raised"; an inner
failure of any other kind propagates unchanged. -/
theorem assert_raises_context_trichotomy :
    (∀ (E : ExnClass) (e : PyExn), e.cls = E →
        _assert_raises_context_manager E (Except.error e) = Except.ok ())
  ∧ (∀ E : ExnClass, ∃ rest : String,
        _assert_raises_context_manager E (Except.ok ())
          = Except.error ⟨AssertionError, "No exception was raised" ++ rest⟩)
  ∧ (∀ (E : ExnClass) (e : PyExn), e.cls ≠ E →
        _assert_raises_context_manager E (Except.error e) = Except.error e) := by
  refine ⟨?_, ?_, ?_⟩
  · intro E e h
    simp [_assert_raises_context_manager, h]
  · intro E
    refine ⟨" (expected <class '" ++ E.name ++ "'>)", ?_⟩
    have hne : ("No exception was raised (expected <class '" ++ E.name ++ "'>)" : String) ≠ "" :=
      append_ne_empty_left _ _ (append_ne_empty_left _ _ (by decide))
    have hmsg : ("No exception was raised (expected <class '" ++ E.name ++ "'>)" : String)
        = "No exception was raised" ++ (" (expected <class '" ++ E.name ++ "'>)") := by
      rw [show ("No exception was raised (expected <class '" : String)
            = "No exception was raised" ++ " (expected <class '" from rfl,
        String.append_assoc "No exception was raised" " (expected <class '" E.name,
        String.append_assoc "No exception was raised"
          (" (expected <class '" ++ E.name) "'>)"]
    calc _assert_raises_context_manager E (Except.ok ())
        = assert_not_reached
            (some ("No exception was raised (expected <class '" ++ E.name ++ "'>)")) := rfl
      _ = Except.error
            ⟨AssertionError, "No exception was raised (expected <class '" ++ E.name ++ "'>)"⟩ :=
          assert_not_reached_some _ hne
      _ = Except.error
            ⟨AssertionError,
              "No exception was raised" ++ (" (expected <class '" ++ E.name ++ "'>)")⟩ := by
          rw [hmsg]
  · intro E e h
    simp [_assert_raises_context_manager, h]

/-- C2 witness at concrete inputs: an inner `ValueError` is absorbed by
`assert_raises(ValueError)`, and an inner `IndexError` propagates unchanged. -/
theorem assert_raises_context_trichotomy_witness :
    _assert_raises_context_manager ValueError (Except.error ⟨ValueError, "boom"⟩) = Except.ok ()
  ∧ _assert_raises_context_manager ValueError (Except.error ⟨IndexError, "boom"⟩)
      = Except.error ⟨IndexError, "boom"⟩ :=
  ⟨assert_raises_context_trichotomy.1 ValueError ⟨ValueError, "boom"⟩ rfl,
   assert_raises_context_trichotomy.2.2 ValueError ⟨IndexError, "boom"⟩ (by decide)⟩

/-- C6: calling `assert_raises` with a callable (hence more than one
positional argument) invokes the callable with exactly the remaining
positional and keyword arguments and wraps the call in the same scoped logic;
calling it with exactly one positional argument and no keyword arguments
returns the scoped context manager without invoking anything. -/
theorem assert_raises_dispatch_spec :
    (∀ (c : ExnClass) (f : Callable) (rest : List PyVal)
        (kwargs : List (String × PyVal)),
        assert_raises ⟨RaisesArgs.withCallable c f rest, kwargs⟩
          = RaisesOutcome.returned (_assert_raises_context_manager c (f rest kwargs)))
  ∧ (∀ c : ExnClass,
        assert_raises ⟨RaisesArgs.clsOnly c, []⟩
          = RaisesOutcome.contextManager (_assert_raises_context_manager c)) := by
  constructor
  · intro c f rest kwargs
    have hnot : ¬ ((RaisesArgs.withCallable c f rest).numPos = 1 ∧ kwargs = []) := by
      rintro ⟨h1, -⟩
      simp only [RaisesArgs.numPos] at h1
      omega
    simp only [assert_raises, if_neg hnot]
    rfl
  · intro c
    simp only [assert_raises]
    rw [if_pos ⟨rfl, trivial⟩]

/-- C7 counterexample: with a text left operand and a non-text right operand,
`_diff_message` passes the text operand through unchanged rather than
converting both operands to `repr` form as the claim states: at `lhs = "x"`,
`rhs = 5` with the pairing highlighter the code yields `l: x`, while
repr-converting both operands would yield `l: 'x'`. -/
theorem diff_message_mixed_counterexample :
    _diff_message (fun a b => (a, b)) (PyVal.str "x") (PyVal.int 5) = "Diff:\nl: x\nr: 5"
  ∧ diffBlock ((fun a b => (a, b)) (pyRepr (PyVal.str "x")) (pyRepr (PyVal.int 5)))
      = "Diff:\nl: 'x'\nr: 5"
  ∧ ("Diff:\nl: x\nr: 5" : String) ≠ "Diff:\nl: 'x'\nr: 5" := by
  refine ⟨by decide, by decide, by decide⟩

/-- C7 (amended): `_diff_message` converts each operand independently — an
operand is passed unchanged when it is text and replaced by its debug string
otherwise — and hands the pair to the external highlighter, formatting the
result as the block `'Diff:\nl: …\nr: …'`; in particular two text operands
pass unchanged and two non-text operands are both repr-converted. -/
theorem diff_message_spec :
    (∀ (hl : String → String → String × String) (l r : PyVal),
        _diff_message hl l r
          = diffBlock (hl (if isBasestring l then pyStr l else pyRepr l)
              (if isBasestring r then pyStr r else pyRepr r)))
  ∧ (∀ (hl : String → String → String × String) (s t : String),
        _diff_message hl (PyVal.str s) (PyVal.str t) = diffBlock (hl s t))
  ∧ (∀ (hl : String → String → String × String) (l r : PyVal),
        isBasestring l = false → isBasestring r = false →
        _diff_message hl l r = diffBlock (hl (pyRepr l) (pyRepr r))) := by
  refine ⟨fun hl l r => rfl, fun hl s t => rfl, ?_⟩
  intro hl l r h1 h2
  unfold _diff_message
  rw [h1, h2]
  simp

/-- C7 witness: the amended non-text clause applied at two int operands. -/
theorem diff_message_spec_witness :
    _diff_message (fun a b => (a, b)) (PyVal.int 3) (PyVal.int 4)
      = diffBlock ((fun a b => (a, b)) (pyRepr (PyVal.int 3)) (pyRepr (PyVal.int 4))) :=
  diff_message_spec.2.2 (fun a b => (a, b)) (PyVal.int 3) (PyVal.int 4) rfl rfl

/-- C4: `assert_rows_equal` succeeds exactly when the two inputs are equal as
multisets of normalised records, and consequently its outcome is invariant
under permutation of the rows of either input and under permutation of the
keys within each (duplicate-free) dict row. -/
theorem assert_rows_equal_spec :
    (∀ (hl : String → String → String × String) (rows1 rows2 : List Row),
        succeeds (assert_rows_equal hl rows1 rows2) ↔
          ((rows1.map norm_row : Multiset (List NormElem))
            = (rows2.map norm_row : Multiset (List NormElem))))
  ∧ (∀ (hl : String → String → String × String) (rows1 rows2 rows1' rows2' : List Row),
        rows1.Perm rows1' → rows2.Perm rows2' →
        (succeeds (assert_rows_equal hl rows1 rows2)
          ↔ succeeds (assert_rows_equal hl rows1' rows2')))
  ∧ (∀ (hl : String → String → String × String) (rows1 rows2 rows1' rows2' : List Row),
        List.Forall₂ KeyPerm rows1 rows1' → List.Forall₂ KeyPerm rows2 rows2' →
        (∀ r ∈ rows1, DictNodup r) → (∀ r ∈ rows2, DictNodup r) →
        (succeeds (assert_rows_equal hl rows1 rows2)
          ↔ succeeds (assert_rows_equal hl rows1' rows2'))) := by
  refine ⟨?_, ?_, ?_⟩
  · intro hl rows1 rows2
    rw [succeeds_assert_rows_equal]
    exact Multiset.coe_eq_coe.symm
  · intro hl rows1 rows2 rows1' rows2' h1 h2
    rw [succeeds_assert_rows_equal, succeeds_assert_rows_equal]
    constructor
    · intro h
      exact ((h1.map norm_row).symm.trans h).trans (h2.map norm_row)
    · intro h
      exact ((h1.map norm_row).trans h).trans (h2.map norm_row).symm
  · intro hl rows1 rows2 rows1' rows2' h1 h2 hnd1 hnd2
    rw [succeeds_assert_rows_equal, succeeds_assert_rows_equal,
      map_norm_row_keyPerm rows1 rows1' h1 hnd1,
      map_norm_row_keyPerm rows2 rows2' h2 hnd2]

/-- C4 witness: permuting the keys of the dict `{"a": 1, "b": 2}` does not
change the outcome of `assert_rows_equal` against a fixed right-hand side. -/
theorem assert_rows_equal_spec_witness :
    succeeds (assert_rows_equal (fun a b => (a, b))
        [Row.dict [("a", 1), ("b", 2)]] [Row.dict [("a", 1), ("b", 2)]])
      ↔ succeeds (assert_rows_equal (fun a b => (a, b))
          [Row.dict [("b", 2), ("a", 1)]] [Row.dict [("a", 1), ("b", 2)]]) :=
  assert_rows_equal_spec.2.2 (fun a b => (a, b)) _ _ _ _
    (List.Forall₂.cons (List.Perm.swap ("b", 2) ("a", 1) []) List.Forall₂.nil)
    (List.Forall₂.cons (List.Perm.refl _) List.Forall₂.nil)
    (by rintro r hr; simp only [List.mem_singleton] at hr; subst hr; simp [DictNodup])
    (by rintro r hr; simp only [List.mem_singleton] at hr; subst hr; simp [DictNodup])

/-- C5 witness: the nonzero-denominator clause applied at `l = 200`,
`r = 202`, `tolerance = 0.02`. -/
theorem assert_within_tolerance_spec_witness :
    succeeds (assert_within_tolerance 200 202 (2 / 100) Option.none) :=
  (assert_within_tolerance_spec.1 200 202 (2 / 100) Option.none (by norm_num)).mpr
    (by norm_num)

theorem lookupFlag_map (env : List (String × LocalEntry)) (key : String) :
    lookupFlag (env.map (fun kv => (kv.1, kv.2.isNum))) key
      = (lookupEntry env key).map LocalEntry.isNum := by
  induction env with
  | nil => rfl
  | cons kv rest ih =>
    obtain ⟨k, v⟩ := kv
    by_cases hk : k = key <;> simp [lookupFlag, lookupEntry, hk, ih]

/-- When the control-flow skeleton `fmtOk` accepts a template against the
key/numeric-flag view of the mapping, the formatting itself succeeds. -/
theorem pyMapFormat_ok_of_fmtOk (env : List (String × LocalEntry)) (d : String)
    (chars : List Char) (st : FmtState) (consumed : Bool)
    (h : fmtOk (env.map (fun kv => (kv.1, kv.2.isNum))) chars st consumed = true) :
    ∃ out, pyMapFormat env d chars st consumed = Except.ok out := by
  induction chars, st, consumed using pyMapFormat.induct env d <;>
    try simp_all [pyMapFormat, fmtOk, lookupFlag_map]
  · next c rest consumed hc t hok =>
      refine ⟨c :: t, ?_⟩
      unfold pyMapFormat
      rw [if_neg hc, hok]
  · next c rest consumed hc e herr ihf =>
      exfalso
      unfold fmtOk at h
      rw [if_neg hc, ihf] at h
      simp at h

/-- A template without `%` always formats cleanly. -/
theorem fmtOk_of_no_percent (ks : List (String × Bool)) :
    ∀ chars : List Char, (∀ c ∈ chars, c ≠ '%') → ∀ consumed : Bool,
      fmtOk ks chars FmtState.text consumed = true := by
  intro chars
  induction chars with
  | nil => intro _ consumed; rfl
  | cons c rest ih =>
    intro h consumed
    have hc : c ≠ '%' := h c (by simp)
    unfold fmtOk
    rw [if_neg hc]
    exact ih (fun x hx => h x (by simp [hx])) consumed

theorem assertLengthEnv_flags (sequence : List PyVal) (expected : Int) (msg : String) :
    (assertLengthEnv sequence expected msg).map (fun kv => (kv.1, kv.2.isNum))
      = [("sequence", false), ("expected", true), ("message", false), ("length", true)] := rfl

theorem assert_call_cons (c : CallRecord) (cs : List CallRecord) (i : Int)
    (args : List PyVal) (kwargs : List (String × PyVal)) :
    assert_call (c :: cs) i args kwargs
      = match pyIndex (c :: cs) i with
        | Except.ok c' =>
            pyAssert ((some c' : Option CallRecord) == some (args, kwargs))
              ("Call " ++ toString i ++ " expected, was different")
        | Except.error e => Except.error e := by
  unfold assert_call
  cases pyIndex (c :: cs) i <;> rfl

/-- C1 counterexample: three assertion functions can signal a failure kind
other than AssertionFailure: `assert_within_tolerance(0, 1, 0.5)` signals
ZeroDivisionError (the claim explicitly includes `lval = 0`); `assert_call`
on a nonempty call log with an out-of-range index signals IndexError; and
`assert_length` on a failing check `%`-formats the custom message against
`locals()`, so `'%d items'` signals TypeError and `'%(foo)s'` signals
KeyError. -/
theorem assertion_failure_kinds_counterexample :
    (assert_within_tolerance 0 1 (1 / 2) Option.none
        = Except.error ⟨ZeroDivisionError, "float division by zero"⟩
      ∧ ZeroDivisionError ≠ AssertionError)
  ∧ (failsWith IndexError (assert_call [([], [])] 5 [] [])
      ∧ IndexError ≠ AssertionError)
  ∧ (assert_length [] 1 (some "%d items")
        = Except.error ⟨TypeError, "a number is required, not dict"⟩
      ∧ TypeError ≠ AssertionError)
  ∧ (assert_length [] 1 (some "%(foo)s") = Except.error ⟨KeyError, "foo"⟩
      ∧ KeyError ≠ AssertionError) := by
  refine ⟨⟨?_, by decide⟩, ⟨?_, by decide⟩, ⟨rfl, by decide⟩, rfl, by decide⟩
  · rw [assert_within_tolerance, if_pos rfl]
  · show failsWith IndexError (assert_call [([], [])] 5 [] [])
    rfl

/-- C1 (amended): every assertion function either succeeds silently or
signals the AssertionFailure kind — `assert_starts_with` on every text `val`
included — except where the code forces otherwise: `assert_within_tolerance`
signals ZeroDivisionError exactly when `lval = 0`; `assert_call` can signal
IndexError when the call log is nonempty and the index is out of range; and
`assert_length` `%`-formats its message against `locals()` on a failing
check, so a custom message carrying format specifiers can signal that
formatting's own kinds (TypeError / KeyError / ValueError) — with the
default message, or any custom message containing no `%`, and on every
passing check, `assert_length` stays within AssertionFailure
(`assert_raises` is excluded per the claim's own exception clause). -/
theorem assertions_signal_only_assertion_failure :
    (∀ (hl : String → String → String × String) (l r : PyVal) (m : Option String),
        onlyAssertionError (assert_equal_py hl l r m))
  ∧ (∀ (l r : PyVal) (m : Option String), onlyAssertionError (assert_not_equal l r m))
  ∧ (∀ (l r : ℚ) (d : Int) (m : Option String),
        onlyAssertionError (assert_almost_equal l r d m))
  ∧ (∀ (l r t : ℚ) (m : Option String), l ≠ 0 →
        onlyAssertionError (assert_within_tolerance l r t m))
  ∧ (∀ (l r t : ℚ) (m : Option String), l = 0 →
        assert_within_tolerance l r t m
          = Except.error ⟨ZeroDivisionError, "float division by zero"⟩)
  ∧ (∀ (l r : ℚ) (m : Option String), onlyAssertionError (assert_lt l r m))
  ∧ (∀ (l r : ℚ) (m : Option String), onlyAssertionError (assert_lte l r m))
  ∧ (∀ (l r : ℚ) (m : Option String), onlyAssertionError (assert_gt l r m))
  ∧ (∀ (l r : ℚ) (m : Option String), onlyAssertionError (assert_gte l r m))
  ∧ (∀ (v s e : ℚ) (m : Option String) (inclusive : Bool),
        onlyAssertionError (assert_in_range v s e m inclusive))
  ∧ (∀ (item : PyVal) (sequence : List PyVal), onlyAssertionError (assert_in item sequence))
  ∧ (∀ (item : PyVal) (sequence : List PyVal), onlyAssertionError (assert_not_in item sequence))
  ∧ (∀ val pre : String, onlyAssertionError (assert_starts_with val pre))
  ∧ (∀ m : Option String, onlyAssertionError (assert_not_reached m))
  ∧ (∀ (hl : String → String → String × String) (rows1 rows2 : List Row),
        onlyAssertionError (assert_rows_equal hl rows1 rows2))
  ∧ (∀ (sequence : List PyVal) (expected : Int),
        onlyAssertionError (assert_length sequence expected Option.none))
  ∧ (∀ (sequence : List PyVal) (expected : Int) (m : String),
        (∀ c ∈ m.data, c ≠ '%') →
        onlyAssertionError (assert_length sequence expected (some m)))
  ∧ (∀ (sequence : List PyVal) (m : Option String),
        assert_length sequence (sequence.length : Int) m = Except.ok ())
  ∧ (∀ (calls : List CallRecord) (i : Int) (args : List PyVal)
        (kwargs : List (String × PyVal)),
        onlyAssertionError (assert_call calls i args kwargs) ∨
          (calls ≠ [] ∧ failsWith IndexError (assert_call calls i args kwargs))) := by
  refine ⟨fun hl l r m => onlyAssertionError_pyAssert _ _,
    fun l r m => onlyAssertionError_pyAssert _ _,
    fun l r d m => onlyAssertionError_pyAssert _ _,
    ?_, ?_,
    fun l r m => onlyAssertionError_pyAssert _ _,
    fun l r m => onlyAssertionError_pyAssert _ _,
    fun l r m => onlyAssertionError_pyAssert _ _,
    fun l r m => onlyAssertionError_pyAssert _ _,
    ?_,
    fun item s => onlyAssertionError_pyAssert _ _,
    fun item s => onlyAssertionError_pyAssert _ _,
    fun val pre => onlyAssertionError_pyAssert _ _,
    fun m => onlyAssertionError_pyAssert _ _,
    fun hl r1 r2 => onlyAssertionError_pyAssert _ _,
    ?_, ?_, ?_,
    ?_⟩
  · intro l r t m hl
    simp only [assert_within_tolerance, if_neg hl]
    exact onlyAssertionError_pyAssert _ _
  · intro l r t m hl
    rw [assert_within_tolerance, if_pos hl]
  · intro v s e m inclusive
    cases inclusive
    · exact onlyAssertionError_pyAssert _ _
    · exact onlyAssertionError_pyAssert _ _
  · intro sequence expected
    unfold assert_length
    by_cases hlen : ((sequence.length : Int) = expected)
    · rw [if_pos hlen]; trivial
    · rw [if_neg hlen]
      obtain ⟨out, hout⟩ := pyMapFormat_ok_of_fmtOk
        (assertLengthEnv sequence expected (msgOr Option.none defaultLengthTemplate))
        (renderLocals (assertLengthEnv sequence expected (msgOr Option.none defaultLengthTemplate)))
        (msgOr Option.none defaultLengthTemplate).data FmtState.text false
        (by rw [assertLengthEnv_flags]; decide)
      rw [hout]
      trivial
  · intro sequence expected m hm
    unfold assert_length
    by_cases hlen : ((sequence.length : Int) = expected)
    · rw [if_pos hlen]; trivial
    · rw [if_neg hlen]
      by_cases hempty : m = ""
      · subst hempty
        rw [show msgOr (some "") defaultLengthTemplate = defaultLengthTemplate from rfl]
        obtain ⟨out, hout⟩ := pyMapFormat_ok_of_fmtOk
          (assertLengthEnv sequence expected defaultLengthTemplate)
          (renderLocals (assertLengthEnv sequence expected defaultLengthTemplate))
          defaultLengthTemplate.data FmtState.text false
          (by rw [assertLengthEnv_flags]; decide)
        rw [hout]
        trivial
      · rw [show msgOr (some m) defaultLengthTemplate = m from by simp [msgOr, hempty]]
        obtain ⟨out, hout⟩ := pyMapFormat_ok_of_fmtOk
          (assertLengthEnv sequence expected m)
          (renderLocals (assertLengthEnv sequence expected m))
          m.data FmtState.text false
          (by rw [assertLengthEnv_flags]; exact fmtOk_of_no_percent _ m.data hm false)
        rw [hout]
        trivial
  · intro sequence m
    unfold assert_length
    rw [if_pos rfl]
  · intro calls i args kwargs
    cases calls with
    | nil =>
      left
      exact onlyAssertionError_pyAssert
        ((Option.none : Option CallRecord) == some (args, kwargs))
        ("Call " ++ toString i ++ " expected, was different")
    | cons c cs =>
      rw [assert_call_cons]
      cases hidx : pyIndex (c :: cs) i with
      | ok c' =>
        left
        exact onlyAssertionError_pyAssert _ _
      | error e =>
        right
        exact ⟨by simp, pyIndex_error _ _ _ hidx⟩

/-- C1 witness: the nonzero-`lval` clause of the amended claim applied at
`assert_within_tolerance(100, 110, 0.02)`, and the `%`-free custom-message
clause of `assert_length` applied at a concrete message. -/
theorem assertions_signal_only_assertion_failure_witness :
    onlyAssertionError (assert_within_tolerance 100 110 (2 / 100) Option.none)
  ∧ onlyAssertionError (assert_length [] 1 (some "no format specifiers here")) :=
  ⟨assertions_signal_only_assertion_failure.2.2.2.1 100 110 (2 / 100) Option.none
      (by norm_num),
   assertions_signal_only_assertion_failure.2.2.2.2.2.2.2.2.2.2.2.2.2.2.2.2.1
      [] 1 "no format specifiers here" (by decide)⟩

end Testify
